import Mathlib

/-!
Shallow embedding of `src/C++/Simple3dStitching.cpp` (a MIL example that
registers two partial point clouds and stitches them into one cloud).

The program itself is a straight-line sequence of SDK calls.  We embed:
  * the numeric constants and the two extraction boxes the program builds;
  * the SDK operations the claims are about (`M3dimCrop`, the statistics
    probe, `M3dregMerge`), modelled from the spec where their code is not
    in the repository;
  * `MosMain` as a deterministic function of an environment (which files
    exist, which display allocations succeed, the restored clouds, and the
    registration status the SDK reports), returning the process exit code,
    an event trace of the SDK calls made, and the stitched cloud.

MIL doubles are modelled as rationals; MIL error codes as an inductive type.
-/

namespace Simple3dStitching

/-- A 3D point (the position stored in a cloud's range component). -/
structure Point3 where
  x : ℚ
  y : ℚ
  z : ℚ
deriving DecidableEq, Repr

/-- An axis-aligned box given by center and per-axis full extents, as built
by `M3dgeoBox(M_CENTER_AND_DIMENSION, cx, cy, cz, dx, dy, dz)`. -/
structure Box where
  cx : ℚ
  cy : ℚ
  cz : ℚ
  dx : ℚ
  dy : ℚ
  dz : ℚ
deriving DecidableEq, Repr

/-- A point-cloud container: a range component (the XYZ points) and an
optional reflectance component (one RGB triple per point). -/
structure Container where
  range : List Point3
  reflectance : Option (List (ℕ × ℕ × ℕ))

/-- Registration element statuses returned by `M3dregGetResult(...,
M_STATUS_REGISTRATION_ELEMENT, ...)` (source lines 279-306). -/
inductive RegistrationStatus where
  | notInitialized
  | notEnoughPointPairs
  | maxIterationsReached
  | rmsErrorThresholdReached
  | rmsErrorRelativeThresholdReached
deriving DecidableEq, Repr

/-- A pairwise registration result: the element status together with the
rigid transform mapping the moving cloud into the fixed cloud's frame. -/
structure RegistrationResult where
  status : RegistrationStatus
  transform : Point3 → Point3

-- Extraction box definitions (source lines 46-48).
def EXTRACTION_BOX_SIZE_X : ℚ := 170
def EXTRACTION_BOX_SIZE_Y : ℚ := 200
def EXTRACTION_BOX_SIZE_Z : ℚ := -66

-- Expected target location (source lines 51-52).
def BOX_OVERLAP : ℚ := 20 / 100
def BOX_USED_OVERLAP : ℚ := 9 / 10 * BOX_OVERLAP

-- Registration context controls definitions (source lines 55-60).
def GRID_SIZE : ℚ := 1
def DECIMATION_STEP : ℤ := 8
def OVERLAP : ℚ := 95
def MAX_ITERATIONS : ℤ := 100
def RMS_ERROR_RELATIVE_THRESHOLD : ℚ := 1 / 2

/-- Whether a point lies inside or on the boundary of a box (inclusive);
extents are taken by absolute value since the program passes a negative Z
dimension (`EXTRACTION_BOX_SIZE_Z = -66`). -/
def inBox (b : Box) (p : Point3) : Bool :=
  decide (2 * |p.x - b.cx| ≤ |b.dx|) &&
  decide (2 * |p.y - b.cy| ≤ |b.dy|) &&
  decide (2 * |p.z - b.cz| ≤ |b.dz|)

/-- Modelled from the spec: `M3dimCrop` (the Region Selector, spec 4.1) is
not in the repository; per the spec it returns exactly the points of the
cloud whose position lies inside or on the box boundary (inclusive). -/
def M3dimCrop (cloud : List Point3) (b : Box) : List Point3 :=
  cloud.filter (inBox b)

/-- Modelled from the spec: the Statistics Probe `CountPointsInRegion`
(`M3dmetStat(M_STAT_CONTEXT_NUMBER, ..., M_SIGNED_DISTANCE_TO_SURFACE,
M_LESS_OR_EQUAL, 0, ...)`, source line 246) is SDK code not in the
repository; it counts the points whose signed distance to the box surface
is at most zero, i.e. the points inside or on the box. -/
def countPointsInBox (cloud : List Point3) (b : Box) : ℕ :=
  (cloud.filter (inBox b)).length

/-- Modelled from the spec: `M3dregMerge` (the Merger, spec 4.4) is SDK
code not in the repository.  Per the spec it applies the result's transform
to every point of the moving cloud, concatenates fixed and transformed
moving points preserving per-point attributes, performs no deduplication,
and fails when the result status indicates no valid transform
(`NotInitialized` or `NotEnoughPointPairs`). -/
def M3dregMerge (result : RegistrationResult) (fixed moving : Container) :
    Option Container :=
  match result.status with
  | RegistrationStatus.notInitialized => none
  | RegistrationStatus.notEnoughPointPairs => none
  | _ =>
    some
      { range := fixed.range ++ moving.range.map result.transform
        reflectance :=
          match fixed.reflectance, moving.reflectance with
          | some a, some b => some (a ++ b)
          | _, _ => none }

/-- `MbufFreeComponent(cloud, M_COMPONENT_REFLECTANCE, ...)` (source line
315): the reflectance component is freed, the range is untouched. -/
def MbufFreeReflectance (c : Container) : Container :=
  { range := c.range, reflectance := none }

/-- The uniform colors written by `MbufClear` (source line 320):
`M_RGB888(135,165,235)` for cloud 0 (reference), `M_RGB888(75,125,215)`
for cloud 1 (target), as (R,G,B) channel triples. -/
def REFLECTANCE_COLOR (i : ℕ) : ℕ × ℕ × ℕ :=
  if i = 0 then (135, 165, 235) else (75, 125, 215)

/-- `MbufAllocComponent(..., M_COMPONENT_REFLECTANCE, ...)` followed by
`MbufClear` (source lines 316-320): a new reflectance component sized like
the range component, uniformly filled with the given color. -/
def MbufAllocClearReflectance (c : Container) (color : ℕ × ℕ × ℕ) : Container :=
  { range := c.range, reflectance := some (List.replicate c.range.length color) }

/-- The body of the coloring loop (source lines 312-322) for cloud `i`:
free the reflectance component, then allocate a new one and clear it to the
cloud's uniform color. -/
def colorCloud (i : ℕ) (c : Container) : Container :=
  MbufAllocClearReflectance (MbufFreeReflectance c) (REFLECTANCE_COLOR i)

/-- The first overlap box (source lines 174-177): center 0, extents
`(EXTRACTION_BOX_SIZE_X, EXTRACTION_BOX_SIZE_Y * BOX_USED_OVERLAP,
EXTRACTION_BOX_SIZE_Z)`. -/
def overlapBox1 : Box :=
  { cx := 0, cy := 0, cz := 0
    dx := EXTRACTION_BOX_SIZE_X
    dy := EXTRACTION_BOX_SIZE_Y * BOX_USED_OVERLAP
    dz := EXTRACTION_BOX_SIZE_Z }

/-- The second overlap box (source lines 237-241): center 0, extents
`(EXTRACTION_BOX_SIZE_X, EXTRACTION_BOX_SIZE_Y * BOX_OVERLAP,
EXTRACTION_BOX_SIZE_Z)`. -/
def overlapBox2 : Box :=
  { cx := 0, cy := 0, cz := 0
    dx := EXTRACTION_BOX_SIZE_X
    dy := EXTRACTION_BOX_SIZE_Y * BOX_OVERLAP
    dz := EXTRACTION_BOX_SIZE_Z }

/-- Which cloud array is passed to an `M3dregCalculate` call: the full
clouds `MilPointCloud` or the cropped clouds `MilCroppedPointCloud`. -/
inductive CloudSet where
  | full
  | cropped
deriving DecidableEq, Repr

/-- One observable SDK call of the run, in program order. -/
inductive Event where
  | checkFile (idx : ℕ) (present : Bool)
  | allocDisplay (d : ℕ) (ok : Bool)
  | printNoSupport
  | waitKey
  | statTotal (n : ℕ)
  | controlStepX (v : ℤ)
  | controlStepY (v : ℤ)
  | controlSubsampleEnable
  | controlMaxIterations (v : ℤ)
  | controlRmsThreshold (v : ℚ)
  | controlMetric
  | controlOverlap (v : ℚ)
  | cropEvent (p : ℕ) (b : Box)
  | calculate (inputs : CloudSet)
  | statOverlapCount (b : Box) (n : ℕ)
  | computeOverlap (cnt total : ℕ) (v : ℚ)
  | setLocation
  | getStatus (s : RegistrationStatus)
  | freeReflectance (i : ℕ)
  | clearReflectance (i : ℕ) (c : ℕ × ℕ × ℕ)
  | mergeCall
deriving DecidableEq, Repr

/-- The environment a run depends on: which input files exist, which of the
three 3D display allocations succeed, the two restored clouds, and the
registration status / transform the SDK's second `M3dregCalculate`
produces (the program reads the status only once, at source line 276). -/
structure Env where
  file0Present : Bool
  file1Present : Bool
  display0Ok : Bool
  display1Ok : Bool
  display2Ok : Bool
  sourceCloud : Container
  targetCloud : Container
  status2 : RegistrationStatus
  finalTransform : Point3 → Point3

/-- What a run produces: the process exit code, the trace of SDK calls, and
the stitched cloud (when the merge produced one). -/
structure RunOutcome where
  exitCode : ℤ
  events : List Event
  stitched : Option Container

/-- The event trace of a run that passes the file check and all three
display allocations (source lines 166-324, in program order). -/
def successEvents (env : Env) : List Event :=
  let totalN := env.sourceCloud.range.length
  let overlapCnt := countPointsInBox env.sourceCloud.range overlapBox2
  let fullModelOverlap : ℚ := ((overlapCnt : ℚ) / (totalN : ℚ)) * OVERLAP
  [Event.checkFile 0 true,
   Event.allocDisplay 0 true, Event.allocDisplay 1 true, Event.allocDisplay 2 true,
   Event.statTotal totalN,
   Event.controlStepX DECIMATION_STEP, Event.controlStepY DECIMATION_STEP,
   Event.controlSubsampleEnable,
   Event.controlMaxIterations MAX_ITERATIONS,
   Event.controlRmsThreshold RMS_ERROR_RELATIVE_THRESHOLD,
   Event.controlMetric,
   Event.cropEvent 0 overlapBox1, Event.cropEvent 1 overlapBox1,
   Event.controlOverlap OVERLAP,
   Event.calculate CloudSet.cropped,
   Event.statOverlapCount overlapBox2 overlapCnt,
   Event.cropEvent 0 overlapBox2, Event.cropEvent 1 overlapBox2,
   Event.computeOverlap overlapCnt totalN fullModelOverlap,
   Event.controlOverlap fullModelOverlap,
   Event.setLocation,
   Event.calculate CloudSet.cropped,
   Event.getStatus env.status2,
   Event.freeReflectance 0, Event.clearReflectance 0 (REFLECTANCE_COLOR 0),
   Event.freeReflectance 1, Event.clearReflectance 1 (REFLECTANCE_COLOR 1),
   Event.mergeCall]

/-- The stitched cloud of a run that reaches the merge (source line 324):
the two recolored clouds merged under the final registration result. -/
def successStitched (env : Env) : Option Container :=
  M3dregMerge { status := env.status2, transform := env.finalTransform }
    (colorCloud 0 env.sourceCloud) (colorCloud 1 env.targetCloud)

/-- `MosMain` (source lines 96-357).  The program checks only the first
input file (line 104, returning -1 when absent), allocates the three 3D
displays in order (a failed allocation prints a message, waits for a key
press and exits with status 0, lines 381-397), then runs the straight-line
pipeline and returns 0 (line 356). -/
def MosMain (env : Env) : RunOutcome :=
  if env.file0Present = false then
    { exitCode := -1, events := [Event.checkFile 0 false], stitched := none }
  else if env.display0Ok = false then
    { exitCode := 0
      events := [Event.checkFile 0 true, Event.allocDisplay 0 false,
        Event.printNoSupport, Event.waitKey]
      stitched := none }
  else if env.display1Ok = false then
    { exitCode := 0
      events := [Event.checkFile 0 true, Event.allocDisplay 0 true,
        Event.allocDisplay 1 false, Event.printNoSupport, Event.waitKey]
      stitched := none }
  else if env.display2Ok = false then
    { exitCode := 0
      events := [Event.checkFile 0 true, Event.allocDisplay 0 true,
        Event.allocDisplay 1 true, Event.allocDisplay 2 false,
        Event.printNoSupport, Event.waitKey]
      stitched := none }
  else
    { exitCode := 0
      events := successEvents env
      stitched := successStitched env }

/-- The indices of the input files whose presence the run checked. -/
def fileChecks : List Event → List ℕ
  | [] => []
  | Event.checkFile idx _ :: rest => idx :: fileChecks rest
  | _ :: rest => fileChecks rest

/-- The boxes passed to the crop calls, in order. -/
def cropBoxes : List Event → List Box
  | [] => []
  | Event.cropEvent _ b :: rest => b :: cropBoxes rest
  | _ :: rest => cropBoxes rest

/-- The values written to the registration context's `M_OVERLAP` control,
in order. -/
def overlapSettings : List Event → List ℚ
  | [] => []
  | Event.controlOverlap v :: rest => v :: overlapSettings rest
  | _ :: rest => overlapSettings rest

/-- The values written to the subsample context's step-size controls. -/
def stepSettings : List Event → List ℤ
  | [] => []
  | Event.controlStepX v :: rest => v :: stepSettings rest
  | Event.controlStepY v :: rest => v :: stepSettings rest
  | _ :: rest => stepSettings rest

/-- The values written to the `M_MAX_ITERATIONS` control. -/
def maxIterSettings : List Event → List ℤ
  | [] => []
  | Event.controlMaxIterations v :: rest => v :: maxIterSettings rest
  | _ :: rest => maxIterSettings rest

/-- The values written to the `M_RMS_ERROR_RELATIVE_THRESHOLD` control. -/
def rmsSettings : List Event → List ℚ
  | [] => []
  | Event.controlRmsThreshold v :: rest => v :: rmsSettings rest
  | _ :: rest => rmsSettings rest

/-- How many times the `M_ERROR_MINIMIZATION_METRIC` control was written. -/
def metricSettings : List Event → ℕ
  | [] => 0
  | Event.controlMetric :: rest => metricSettings rest + 1
  | _ :: rest => metricSettings rest

/-- The cloud arrays passed to the `M3dregCalculate` calls, in order. -/
def calculateInputs : List Event → List CloudSet
  | [] => []
  | Event.calculate i :: rest => i :: calculateInputs rest
  | _ :: rest => calculateInputs rest

/-- The (numerator, denominator) point counts of the overlap divisions the
run performed. -/
def divisionEvents : List Event → List (ℕ × ℕ)
  | [] => []
  | Event.computeOverlap cnt total _ :: rest => (cnt, total) :: divisionEvents rest
  | _ :: rest => divisionEvents rest

/-- The crop, registration and merge calls of a trace (the processing
pipeline, as opposed to I/O, display and configuration calls). -/
def pipelineEvents : List Event → List Event
  | [] => []
  | Event.cropEvent p b :: rest => Event.cropEvent p b :: pipelineEvents rest
  | Event.calculate i :: rest => Event.calculate i :: pipelineEvents rest
  | Event.mergeCall :: rest => Event.mergeCall :: pipelineEvents rest
  | _ :: rest => pipelineEvents rest

/-- The prefix of a trace strictly before its first `M3dregCalculate`. -/
def beforeFirstCalculate : List Event → List Event
  | [] => []
  | Event.calculate _ :: _ => []
  | e :: rest => e :: beforeFirstCalculate rest

/-- The suffix of a trace strictly after its first `M3dregCalculate`. -/
def afterFirstCalculate : List Event → List Event
  | [] => []
  | Event.calculate _ :: rest => rest
  | _ :: rest => afterFirstCalculate rest

/-- Whether a trace contains an `M3dregCalculate` call. -/
def containsCalculate : List Event → Bool
  | [] => false
  | Event.calculate _ :: _ => true
  | _ :: rest => containsCalculate rest

/-- Whether a trace contains an `M3dregSetLocation` followed later by an
`M3dregCalculate`. -/
def setLocationThenCalculate : List Event → Bool
  | [] => false
  | Event.setLocation :: rest => containsCalculate rest
  | _ :: rest => setLocationThenCalculate rest

/-- Whether the second `M3dregCalculate` of a trace is seeded: between the
first and the second calculate call, an `M3dregSetLocation` occurs. -/
def seededSecondCalculate (evs : List Event) : Bool :=
  setLocationThenCalculate (afterFirstCalculate evs)

/-- Whether a trace contains an `M_OVERLAP` write followed later by an
`M3dregCalculate`. -/
def overlapThenCalculate : List Event → Bool
  | [] => false
  | Event.controlOverlap _ :: rest => containsCalculate rest
  | _ :: rest => overlapThenCalculate rest

/-- Whether a registration-context control is written between two
registration stages: after the first `M3dregCalculate`, the `M_OVERLAP`
control is written again and another `M3dregCalculate` follows. -/
def overlapModifiedBetweenStages (evs : List Event) : Bool :=
  overlapThenCalculate (afterFirstCalculate evs)

/-- Whether every merge call of a trace is preceded by a read of the
registration status (`seen` records whether a status read occurred in the
part of the trace already scanned). -/
def checksStatusBeforeMerge (seen : Bool) : List Event → Bool
  | [] => true
  | Event.mergeCall :: rest => seen && checksStatusBeforeMerge seen rest
  | Event.getStatus _ :: rest => checksStatusBeforeMerge true rest
  | _ :: rest => checksStatusBeforeMerge seen rest

/-- A point inside both overlap boxes. -/
def pInside : Point3 := { x := 0, y := 0, z := 0 }

/-- A point outside both overlap boxes. -/
def pOutside : Point3 := { x := 1000, y := 0, z := 0 }

/-- A fully successful environment: both files present, all three displays
allocate, a two-point source cloud with one point in the overlap region,
and a registration that converges. -/
def envOK : Env :=
  { file0Present := true
    file1Present := true
    display0Ok := true
    display1Ok := true
    display2Ok := true
    sourceCloud := { range := [pInside, pOutside], reflectance := some [(1, 2, 3), (4, 5, 6)] }
    targetCloud := { range := [pInside], reflectance := some [(7, 8, 9)] }
    status2 := RegistrationStatus.rmsErrorRelativeThresholdReached
    finalTransform := fun p => p }

/-- An environment whose second input file is absent and whose alignment
fails with `NotInitialized`. -/
def envC2 : Env :=
  { file0Present := true
    file1Present := false
    display0Ok := true
    display1Ok := true
    display2Ok := true
    sourceCloud := { range := [pInside, pOutside], reflectance := some [(1, 2, 3), (4, 5, 6)] }
    targetCloud := { range := [pInside], reflectance := some [(7, 8, 9)] }
    status2 := RegistrationStatus.notInitialized
    finalTransform := fun p => p }

/-- An environment whose source cloud has zero points. -/
def envZero : Env :=
  { file0Present := true
    file1Present := true
    display0Ok := true
    display1Ok := true
    display2Ok := true
    sourceCloud := { range := [], reflectance := none }
    targetCloud := { range := [pInside], reflectance := some [(7, 8, 9)] }
    status2 := RegistrationStatus.notEnoughPointPairs
    finalTransform := fun p => p }

/-- An environment whose second 3D display allocation fails. -/
def envC9 : Env :=
  { file0Present := true
    file1Present := true
    display0Ok := true
    display1Ok := false
    display2Ok := true
    sourceCloud := { range := [pInside, pOutside], reflectance := some [(1, 2, 3), (4, 5, 6)] }
    targetCloud := { range := [pInside], reflectance := some [(7, 8, 9)] }
    status2 := RegistrationStatus.rmsErrorRelativeThresholdReached
    finalTransform := fun p => p }

/-- A registration result that converged (for exercising the merge). -/
def resultOK : RegistrationResult :=
  { status := RegistrationStatus.rmsErrorRelativeThresholdReached
    transform := fun p => p }

/-- A sample fixed cloud for exercising the merge. -/
def fixedSample : Container :=
  { range := [pInside], reflectance := some [(1, 2, 3)] }

/-- A sample moving cloud for exercising the merge. -/
def movingSample : Container :=
  { range := [pInside, pOutside], reflectance := some [(4, 5, 6), (7, 8, 9)] }

/-- A run that passes the file check and all three display allocations
produces exit code 0, the success trace and the merged cloud. -/
theorem mosMain_success (env : Env) (h0 : env.file0Present = true)
    (h1 : env.display0Ok = true) (h2 : env.display1Ok = true)
    (h3 : env.display2Ok = true) :
    MosMain env =
      { exitCode := 0, events := successEvents env, stitched := successStitched env } := by
  simp [MosMain, h0, h1, h2, h3]

/-- Claim C1: merge is only performed on a successful alignment result.  On
every run the registration status is read before the merge call is made,
and the merge operation (modelled from the spec) rejects a result whose
status is `NotInitialized` or `NotEnoughPointPairs` instead of merging. -/
theorem c1_merge_requires_checked_status :
    (∀ env : Env, checksStatusBeforeMerge false (MosMain env).events = true) ∧
    (∀ (t : Point3 → Point3) (fixed moving : Container),
      M3dregMerge { status := RegistrationStatus.notInitialized, transform := t }
          fixed moving = none ∧
      M3dregMerge { status := RegistrationStatus.notEnoughPointPairs, transform := t }
          fixed moving = none) := by
  constructor
  · intro env
    obtain ⟨f0, f1, d0, d1, d2, sc, tc, st, tr⟩ := env
    cases f0 <;> cases d0 <;> cases d1 <;> cases d2 <;> rfl
  · intro t fixed moving
    exact ⟨rfl, rfl⟩

/-- Claim C2 counterexample: a run whose second input file is absent and
whose alignment fails with `NotInitialized` still terminates with exit code
0 — the claim that the exit code is nonzero on missing input (for both
files) and nonzero on alignment failure is false on the code. -/
theorem c2_exit_code_counterexample :
    envC2.file1Present = false ∧
    envC2.status2 = RegistrationStatus.notInitialized ∧
    (MosMain envC2).exitCode = 0 := by
  exact ⟨rfl, rfl, rfl⟩

/-- Claim C2 amended: the run checks only the first input file, and the
exit code is -1 exactly when that file is absent; every other run —
including one whose alignment fails and one whose second file is absent —
terminates with exit status 0. -/
theorem c2_exit_code_amended (env : Env) :
    fileChecks (MosMain env).events = [0] ∧
    (MosMain env).exitCode = (if env.file0Present then 0 else -1) := by
  obtain ⟨f0, f1, d0, d1, d2, sc, tc, st, tr⟩ := env
  cases f0 <;> cases d0 <;> cases d1 <;> cases d2 <;> exact ⟨rfl, rfl⟩

/-- Claim C3 counterexample: on a full run the first two crops use
`overlapBox1` and the later two use `overlapBox2`; the boxes agree on X and
Z, and the first box's Y extent (200 * 0.18 = 36) is strictly smaller than
the second's (200 * 0.20 = 40) — the pre-registration box is narrower, not
wider, than the refinement box. -/
theorem c3_box_order_counterexample :
    cropBoxes (MosMain envOK).events = [overlapBox1, overlapBox1, overlapBox2, overlapBox2] ∧
    overlapBox1.dx = overlapBox2.dx ∧ overlapBox1.dz = overlapBox2.dz ∧
    overlapBox1.dy = 36 ∧ overlapBox2.dy = 40 ∧
    |overlapBox1.dy| < |overlapBox2.dy| := by
  refine ⟨rfl, rfl, rfl, ?_, ?_, ?_⟩
  · norm_num [overlapBox1, EXTRACTION_BOX_SIZE_Y, BOX_USED_OVERLAP, BOX_OVERLAP]
  · norm_num [overlapBox2, EXTRACTION_BOX_SIZE_Y, BOX_OVERLAP]
  · norm_num [overlapBox1, overlapBox2, EXTRACTION_BOX_SIZE_Y, BOX_USED_OVERLAP, BOX_OVERLAP]

/-- Claim C3 amended: the two extraction boxes are used in sequence with
the first (pre-registration) box narrower than the second (refinement) box:
the initial crop uses the box whose Y extent is scaled by
`BOX_USED_OVERLAP = 0.9 * BOX_OVERLAP` and the refinement crop uses the
wider box whose Y extent is scaled by `BOX_OVERLAP`. -/
theorem c3_box_order_amended (env : Env) (h0 : env.file0Present = true)
    (h1 : env.display0Ok = true) (h2 : env.display1Ok = true)
    (h3 : env.display2Ok = true) :
    cropBoxes (MosMain env).events = [overlapBox1, overlapBox1, overlapBox2, overlapBox2] ∧
    overlapBox1.dy = EXTRACTION_BOX_SIZE_Y * BOX_USED_OVERLAP ∧
    overlapBox2.dy = EXTRACTION_BOX_SIZE_Y * BOX_OVERLAP ∧
    |overlapBox1.dy| < |overlapBox2.dy| := by
  rw [mosMain_success env h0 h1 h2 h3]
  refine ⟨rfl, rfl, rfl, ?_⟩
  norm_num [overlapBox1, overlapBox2, EXTRACTION_BOX_SIZE_Y, BOX_USED_OVERLAP, BOX_OVERLAP]

/-- Claim C3 amended, at a concrete input. -/
theorem c3_box_order_amended_witness :
    cropBoxes (MosMain envOK).events = [overlapBox1, overlapBox1, overlapBox2, overlapBox2] ∧
    overlapBox1.dy = EXTRACTION_BOX_SIZE_Y * BOX_USED_OVERLAP ∧
    overlapBox2.dy = EXTRACTION_BOX_SIZE_Y * BOX_OVERLAP ∧
    |overlapBox1.dy| < |overlapBox2.dy| :=
  c3_box_order_amended envOK rfl rfl rfl rfl

/-- Claim C4 counterexample: on a run whose source cloud has zero points
the program still performs the overlap division (with denominator 0) and
still proceeds to the second registration call — there is no explicit
`NotEnoughPointPairs` guard around the division. -/
theorem c4_overlap_guard_counterexample :
    envZero.sourceCloud.range.length = 0 ∧
    divisionEvents (MosMain envZero).events = [(0, 0)] ∧
    calculateInputs (MosMain envZero).events = [CloudSet.cropped, CloudSet.cropped] := by
  exact ⟨rfl, rfl, rfl⟩

/-- Claim C4 amended: between the two alignment phases the refined overlap
parameter is computed as (number of source-cloud points inside the second —
wider — expected-overlap box, divided by the source cloud's total point
count) multiplied by the initial overlap percentage; the zero-total case is
not guarded: the division is performed unconditionally and the pipeline
always proceeds to the second registration call. -/
theorem c4_overlap_formula_amended (env : Env) (h0 : env.file0Present = true)
    (h1 : env.display0Ok = true) (h2 : env.display1Ok = true)
    (h3 : env.display2Ok = true) :
    overlapSettings (MosMain env).events =
      [OVERLAP,
       ((countPointsInBox env.sourceCloud.range overlapBox2 : ℚ) /
          (env.sourceCloud.range.length : ℚ)) * OVERLAP] ∧
    divisionEvents (MosMain env).events =
      [(countPointsInBox env.sourceCloud.range overlapBox2,
        env.sourceCloud.range.length)] ∧
    calculateInputs (MosMain env).events = [CloudSet.cropped, CloudSet.cropped] := by
  rw [mosMain_success env h0 h1 h2 h3]
  exact ⟨rfl, rfl, rfl⟩

/-- Claim C4 amended, at a concrete input. -/
theorem c4_overlap_formula_amended_witness :
    overlapSettings (MosMain envOK).events =
      [OVERLAP,
       ((countPointsInBox envOK.sourceCloud.range overlapBox2 : ℚ) /
          (envOK.sourceCloud.range.length : ℚ)) * OVERLAP] ∧
    divisionEvents (MosMain envOK).events =
      [(countPointsInBox envOK.sourceCloud.range overlapBox2,
        envOK.sourceCloud.range.length)] ∧
    calculateInputs (MosMain envOK).events = [CloudSet.cropped, CloudSet.cropped] :=
  c4_overlap_formula_amended envOK rfl rfl rfl rfl

/-- Claim C5, the code evaluated at a failing input: on a full run both
`M3dregCalculate` calls receive the cropped clouds (`MilCroppedPointCloud`)
— the second, seeded, call is not given the full clouds, although the
code's own comment above it says the full point clouds are used. -/
theorem c5_second_calculate_uses_cropped :
    calculateInputs (MosMain envOK).events = [CloudSet.cropped, CloudSet.cropped] ∧
    seededSecondCalculate (MosMain envOK).events = true ∧
    cropBoxes (MosMain envOK).events = [overlapBox1, overlapBox1, overlapBox2, overlapBox2] := by
  exact ⟨rfl, rfl, rfl⟩

/-- Of `envOK`'s two source points, exactly one lies in the second overlap
box. -/
theorem countPointsInBox_envOK :
    countPointsInBox envOK.sourceCloud.range overlapBox2 = 1 := by
  norm_num [countPointsInBox, envOK, pInside, pOutside, inBox, overlapBox2,
    EXTRACTION_BOX_SIZE_X, EXTRACTION_BOX_SIZE_Y, EXTRACTION_BOX_SIZE_Z,
    BOX_OVERLAP, List.filter]

/-- Claim C6 counterexample: on a full run the registration context's
`M_OVERLAP` control is written twice with different values (95, then
(1/2) * 95), the second write happening between the two `M3dregCalculate`
calls — the configuration is not immutable between the pipeline's
stages. -/
theorem c6_overlap_modified_counterexample :
    overlapSettings (MosMain envOK).events = [OVERLAP, 95 / 2] ∧
    (95 / 2 : ℚ) ≠ OVERLAP ∧
    overlapModifiedBetweenStages (MosMain envOK).events = true := by
  refine ⟨?_, ?_, rfl⟩
  · rw [mosMain_success envOK rfl rfl rfl rfl]
    show [OVERLAP,
      ((countPointsInBox envOK.sourceCloud.range overlapBox2 : ℚ) /
        (envOK.sourceCloud.range.length : ℚ)) * OVERLAP] = [OVERLAP, 95 / 2]
    rw [countPointsInBox_envOK]
    norm_num [envOK, pInside, pOutside, OVERLAP]
  · norm_num [OVERLAP]

/-- Claim C6 amended: the subsample step sizes, maximum iteration count,
relative RMS threshold and error metric are each set exactly once, before
the first registration call; the expected-overlap percentage alone is set
twice — to 95 before the first registration and to the scaled value between
the two registration calls. -/
theorem c6_config_amended (env : Env) (h0 : env.file0Present = true)
    (h1 : env.display0Ok = true) (h2 : env.display1Ok = true)
    (h3 : env.display2Ok = true) :
    stepSettings (MosMain env).events = [DECIMATION_STEP, DECIMATION_STEP] ∧
    stepSettings (beforeFirstCalculate (MosMain env).events) =
      [DECIMATION_STEP, DECIMATION_STEP] ∧
    maxIterSettings (MosMain env).events = [MAX_ITERATIONS] ∧
    maxIterSettings (beforeFirstCalculate (MosMain env).events) = [MAX_ITERATIONS] ∧
    rmsSettings (MosMain env).events = [RMS_ERROR_RELATIVE_THRESHOLD] ∧
    rmsSettings (beforeFirstCalculate (MosMain env).events) =
      [RMS_ERROR_RELATIVE_THRESHOLD] ∧
    metricSettings (MosMain env).events = 1 ∧
    metricSettings (beforeFirstCalculate (MosMain env).events) = 1 ∧
    overlapSettings (MosMain env).events =
      [OVERLAP,
       ((countPointsInBox env.sourceCloud.range overlapBox2 : ℚ) /
          (env.sourceCloud.range.length : ℚ)) * OVERLAP] ∧
    overlapModifiedBetweenStages (MosMain env).events = true := by
  rw [mosMain_success env h0 h1 h2 h3]
  exact ⟨rfl, rfl, rfl, rfl, rfl, rfl, rfl, rfl, rfl, rfl⟩

/-- Claim C6 amended, at a concrete input. -/
theorem c6_config_amended_witness :
    stepSettings (MosMain envOK).events = [DECIMATION_STEP, DECIMATION_STEP] ∧
    stepSettings (beforeFirstCalculate (MosMain envOK).events) =
      [DECIMATION_STEP, DECIMATION_STEP] ∧
    maxIterSettings (MosMain envOK).events = [MAX_ITERATIONS] ∧
    maxIterSettings (beforeFirstCalculate (MosMain envOK).events) = [MAX_ITERATIONS] ∧
    rmsSettings (MosMain envOK).events = [RMS_ERROR_RELATIVE_THRESHOLD] ∧
    rmsSettings (beforeFirstCalculate (MosMain envOK).events) =
      [RMS_ERROR_RELATIVE_THRESHOLD] ∧
    metricSettings (MosMain envOK).events = 1 ∧
    metricSettings (beforeFirstCalculate (MosMain envOK).events) = 1 ∧
    overlapSettings (MosMain envOK).events =
      [OVERLAP,
       ((countPointsInBox envOK.sourceCloud.range overlapBox2 : ℚ) /
          (envOK.sourceCloud.range.length : ℚ)) * OVERLAP] ∧
    overlapModifiedBetweenStages (MosMain envOK).events = true :=
  c6_config_amended envOK rfl rfl rfl rfl

/-- Claim C7: for every fixed cloud, moving cloud and registration result
whose status admits a valid transform, the merged cloud's point count is
exactly the sum of the two input point counts (the merge concatenates, with
no deduplication). -/
theorem c7_merge_point_count (r : RegistrationResult) (fixed moving : Container)
    (h1 : r.status ≠ RegistrationStatus.notInitialized)
    (h2 : r.status ≠ RegistrationStatus.notEnoughPointPairs) :
    ∃ s : Container, M3dregMerge r fixed moving = some s ∧
      s.range.length = fixed.range.length + moving.range.length := by
  obtain ⟨st, tr⟩ := r
  cases st
  · exact absurd rfl h1
  · exact absurd rfl h2
  all_goals exact ⟨_, rfl, by simp⟩

/-- Claim C7, at a concrete input. -/
theorem c7_merge_point_count_witness :
    ∃ s : Container, M3dregMerge resultOK fixedSample movingSample = some s ∧
      s.range.length = fixedSample.range.length + movingSample.range.length :=
  c7_merge_point_count resultOK fixedSample movingSample (by decide) (by decide)

/-- Claim C8: for every cloud and axis-aligned box, the crop contains
exactly the points of the cloud lying inside or on the box boundary
(inclusive), and cropping is idempotent. -/
theorem c8_crop_membership_idempotent (cloud : List Point3) (b : Box) :
    (∀ p : Point3, p ∈ M3dimCrop cloud b ↔ p ∈ cloud ∧ inBox b p = true) ∧
    M3dimCrop (M3dimCrop cloud b) b = M3dimCrop cloud b := by
  constructor
  · intro p
    simp [M3dimCrop, List.mem_filter]
  · simp [M3dimCrop, List.filter_filter]

/-- Every element of a concatenation of two constant lists is one of the
two constants. -/
theorem color_mem_replicates (n m : ℕ) (c d : ℕ × ℕ × ℕ) :
    ∀ col ∈ List.replicate n c ++ List.replicate m d, col = c ∨ col = d := by
  intro col hcol
  rcases List.mem_append.mp hcol with h | h
  · exact Or.inl (List.eq_of_mem_replicate h)
  · exact Or.inr (List.eq_of_mem_replicate h)

/-- Claim C9: when the first failing 3D-display allocation occurs (the
system does not support 3D display), the run prints the no-support message,
waits for a key press, and terminates with process exit status 0 before any
cropping, registration or merging is performed. -/
theorem c9_display_failure_exit_zero (env : Env) (h0 : env.file0Present = true)
    (hd : env.display0Ok = false ∨ env.display1Ok = false ∨ env.display2Ok = false) :
    (MosMain env).exitCode = 0 ∧
    pipelineEvents (MosMain env).events = [] ∧
    Event.printNoSupport ∈ (MosMain env).events ∧
    Event.waitKey ∈ (MosMain env).events ∧
    (MosMain env).stitched = none := by
  obtain ⟨f0, f1, d0, d1, d2, sc, tc, st, tr⟩ := env
  cases f0
  · exact absurd h0 (by simp)
  · rcases hd with h | h | h <;> cases d0 <;> cases d1 <;> cases d2 <;>
      simp_all [MosMain, pipelineEvents]

/-- Claim C9, at a concrete input. -/
theorem c9_display_failure_exit_zero_witness :
    (MosMain envC9).exitCode = 0 ∧
    pipelineEvents (MosMain envC9).events = [] ∧
    Event.printNoSupport ∈ (MosMain envC9).events ∧
    Event.waitKey ∈ (MosMain envC9).events ∧
    (MosMain envC9).stitched = none :=
  c9_display_failure_exit_zero envC9 rfl (Or.inr (Or.inl rfl))

/-- Claim C10: immediately before the merge, each input cloud's reflectance
component is freed and replaced by a uniform-color one — RGB(135,165,235)
for the reference cloud, RGB(75,125,215) for the target cloud — while the
range component is unchanged; the merged cloud's per-point colors are
therefore exactly these two constants. -/
theorem c10_recolor_before_merge (env : Env) (h0 : env.file0Present = true)
    (h1 : env.display0Ok = true) (h2 : env.display1Ok = true)
    (h3 : env.display2Ok = true)
    (hs1 : env.status2 ≠ RegistrationStatus.notInitialized)
    (hs2 : env.status2 ≠ RegistrationStatus.notEnoughPointPairs) :
    (MbufFreeReflectance env.sourceCloud).reflectance = none ∧
    (MbufFreeReflectance env.sourceCloud).range = env.sourceCloud.range ∧
    (colorCloud 0 env.sourceCloud).range = env.sourceCloud.range ∧
    (colorCloud 1 env.targetCloud).range = env.targetCloud.range ∧
    (colorCloud 0 env.sourceCloud).reflectance =
      some (List.replicate env.sourceCloud.range.length (135, 165, 235)) ∧
    (colorCloud 1 env.targetCloud).reflectance =
      some (List.replicate env.targetCloud.range.length (75, 125, 215)) ∧
    ∃ s : Container, (MosMain env).stitched = some s ∧
      s.range = env.sourceCloud.range ++ env.targetCloud.range.map env.finalTransform ∧
      s.reflectance =
        some (List.replicate env.sourceCloud.range.length (135, 165, 235) ++
          List.replicate env.targetCloud.range.length (75, 125, 215)) ∧
      ∀ col ∈ List.replicate env.sourceCloud.range.length ((135, 165, 235) : ℕ × ℕ × ℕ) ++
          List.replicate env.targetCloud.range.length (75, 125, 215),
        col = (135, 165, 235) ∨ col = (75, 125, 215) := by
  rw [mosMain_success env h0 h1 h2 h3]
  refine ⟨rfl, rfl, rfl, rfl, rfl, rfl, ?_⟩
  show ∃ s : Container,
    M3dregMerge { status := env.status2, transform := env.finalTransform }
      (colorCloud 0 env.sourceCloud) (colorCloud 1 env.targetCloud) = some s ∧ _
  cases hst : env.status2 with
  | notInitialized => exact absurd hst hs1
  | notEnoughPointPairs => exact absurd hst hs2
  | maxIterationsReached => exact ⟨_, rfl, rfl, rfl, color_mem_replicates _ _ _ _⟩
  | rmsErrorThresholdReached => exact ⟨_, rfl, rfl, rfl, color_mem_replicates _ _ _ _⟩
  | rmsErrorRelativeThresholdReached =>
      exact ⟨_, rfl, rfl, rfl, color_mem_replicates _ _ _ _⟩

/-- Claim C10, at a concrete input. -/
theorem c10_recolor_before_merge_witness :
    (MbufFreeReflectance envOK.sourceCloud).reflectance = none ∧
    (MbufFreeReflectance envOK.sourceCloud).range = envOK.sourceCloud.range ∧
    (colorCloud 0 envOK.sourceCloud).range = envOK.sourceCloud.range ∧
    (colorCloud 1 envOK.targetCloud).range = envOK.targetCloud.range ∧
    (colorCloud 0 envOK.sourceCloud).reflectance =
      some (List.replicate envOK.sourceCloud.range.length (135, 165, 235)) ∧
    (colorCloud 1 envOK.targetCloud).reflectance =
      some (List.replicate envOK.targetCloud.range.length (75, 125, 215)) ∧
    ∃ s : Container, (MosMain envOK).stitched = some s ∧
      s.range = envOK.sourceCloud.range ++ envOK.targetCloud.range.map envOK.finalTransform ∧
      s.reflectance =
        some (List.replicate envOK.sourceCloud.range.length (135, 165, 235) ++
          List.replicate envOK.targetCloud.range.length (75, 125, 215)) ∧
      ∀ col ∈ List.replicate envOK.sourceCloud.range.length ((135, 165, 235) : ℕ × ℕ × ℕ) ++
          List.replicate envOK.targetCloud.range.length (75, 125, 215),
        col = (135, 165, 235) ∨ col = (75, 125, 215) :=
  c10_recolor_before_merge envOK rfl rfl rfl rfl (by decide) (by decide)

end Simple3dStitching
